import Mathlib

/-!
Verification of the flight-tracker repository (src/src/App.tsx).

The source file contains two React components:
* a single-mode tracker that fetches live data from the OpenSky endpoint and
  falls back to a synthetic generator (modelled in namespace `Single`), and
* a dual-mode (flight/airport) tracker that only ever synthesizes data and
  perturbs flight positions on a 5-second timer (modelled in namespace `Dual`).

JavaScript numbers are modelled as rationals (ideal arithmetic), strings as
`List Char`, and `Math.random()` as an explicit stream of rationals in [0,1)
passed to each function that consumes randomness.
-/

/-- ASCII lower-casing of a string, modelling `String.prototype.toLowerCase`
on the ASCII data this program generates. -/
def lowerStr (s : List Char) : List Char := s.map Char.toLower

/-- Whitespace test used by `trimStr`, modelling the characters
`String.prototype.trim` removes that can occur in this program's data. -/
def isWS (c : Char) : Bool := c = ' ' || c = '\t' || c = '\n' || c = '\r'

/-- Model of `String.prototype.trim`: drop whitespace from both ends. -/
def trimStr (s : List Char) : List Char :=
  ((s.dropWhile isWS).reverse.dropWhile isWS).reverse

/-- Does the second list occur as a leading segment of the first? -/
def strStartsWith : List Char → List Char → Bool
  | _, [] => true
  | [], _ :: _ => false
  | c :: s, d :: t => c = d && strStartsWith s t

/-- Model of `String.prototype.includes`: does `t` occur as a contiguous
substring of `s`? -/
def strContains : List Char → List Char → Bool
  | [], t => t.isEmpty
  | c :: s, t => strStartsWith (c :: s) t || strContains s t

/-- Truncation toward zero of a rational, as JavaScript's `%` truncates the
quotient. -/
def ratTrunc (x : ℚ) : ℤ := if 0 ≤ x then ⌊x⌋ else ⌈x⌉

/-- Model of the JavaScript remainder operator `a % n` on numbers:
`a - n * trunc (a / n)`. -/
def jsMod (a n : ℚ) : ℚ := a - n * ratTrunc (a / n)

namespace Dual

/-- The dual-mode variant's `Flight` interface. -/
structure Flight where
  flight_icao : List Char
  flight_iata : List Char
  dep_iata : List Char
  arr_iata : List Char
  airline_icao : List Char
  airline_iata : List Char
  latitude : ℚ
  longitude : ℚ
  altitude : ℚ
  speed : ℚ
  status : List Char
  direction : ℚ
deriving DecidableEq

/-- The dual-mode variant's `Airport` interface (latitude/longitude are
string-encoded in the source, via `toFixed(6)`). -/
structure Airport where
  airport_name : List Char
  iata_code : List Char
  icao_code : List Char
  latitude : List Char
  longitude : List Char
  country_name : List Char
  city_iata_code : List Char
deriving DecidableEq

/-- Airline codes used by the dual-mode `generateMockFlights`. -/
def airlines : List (List Char) :=
  ["AA".toList, "UA".toList, "DL".toList, "LH".toList, "BA".toList,
   "AF".toList, "KL".toList, "EK".toList, "QR".toList, "SQ".toList]

/-- Status values used by the dual-mode `generateMockFlights`. -/
def statuses : List (List Char) :=
  ["scheduled".toList, "active".toList, "landed".toList, "delayed".toList,
   "cancelled".toList]

/-- Country names used by the dual-mode `generateMockAirports`. -/
def countries : List (List Char) :=
  ["USA".toList, "UK".toList, "Germany".toList, "France".toList,
   "Japan".toList, "Australia".toList, "Canada".toList, "Brazil".toList,
   "India".toList, "China".toList]

/-- Model of `String.fromCharCode(65 + Math.floor(r * 26))`. -/
def randUpper (r : ℚ) : Char := Char.ofNat (65 + Int.toNat ⌊r * 26⌋)

/-- Digits of a natural number, modelling `Number.prototype.toString` on the
integers this program produces. -/
def natDigits (n : Nat) : List Char := Nat.toDigits 10 n

/-- One flight of the dual-mode `generateMockFlights` loop body; `r j` is the
j-th `Math.random()` call of the iteration, in source order. -/
def mkMockFlight (r : Nat → ℚ) : Flight :=
  let airline := airlines.getD (Int.toNat ⌊r 0 * 10⌋) []
  { flight_icao := airline ++ natDigits (Int.toNat ⌊1000 + r 1 * 9000⌋)
    flight_iata := airline ++ natDigits (Int.toNat ⌊100 + r 2 * 900⌋)
    dep_iata := [randUpper (r 3), randUpper (r 4), randUpper (r 5)]
    arr_iata := [randUpper (r 6), randUpper (r 7), randUpper (r 8)]
    airline_icao := airline ++ ['A']
    airline_iata := airline
    latitude := r 9 * 180 - 90
    longitude := r 10 * 360 - 180
    altitude := (Int.toNat ⌊r 11 * 40000⌋ : ℚ) + 5000
    speed := (Int.toNat ⌊r 12 * 500⌋ : ℚ) + 300
    status := statuses.getD (Int.toNat ⌊r 13 * 5⌋) []
    direction := (Int.toNat ⌊r 14 * 360⌋ : ℚ) }

/-- The dual-mode `generateMockFlights`: `count` flights, iteration `i`
consuming the 15 random draws `rs (15*i) .. rs (15*i+14)`. -/
def generateMockFlights (rs : Nat → ℚ) (count : Nat) : List Flight :=
  (List.range count).map (fun i => mkMockFlight (fun j => rs (15 * i + j)))

/-- Fixed-point decimal rendering with six fraction digits, modelling
`Number.prototype.toFixed(6)` (rounding half away from zero). -/
def toFixed6 (q : ℚ) : List Char :=
  let m : Nat := Int.toNat ⌊|q| * 1000000 + 1 / 2⌋
  let frac := natDigits (m % 1000000)
  (if q < 0 then ['-'] else []) ++ natDigits (m / 1000000) ++ ['.'] ++
    (List.replicate (6 - frac.length) '0' ++ frac)

/-- One airport of the dual-mode `generateMockAirports` loop body. -/
def mkMockAirport (r : Nat → ℚ) : Airport :=
  let iataCode := [randUpper (r 0), randUpper (r 1), randUpper (r 2)]
  { airport_name := iataCode ++ " International Airport".toList
    iata_code := iataCode
    icao_code := 'K' :: iataCode
    latitude := toFixed6 (r 3 * 180 - 90)
    longitude := toFixed6 (r 4 * 360 - 180)
    country_name := countries.getD (Int.toNat ⌊r 5 * 10⌋) []
    city_iata_code := iataCode.take 2 }

/-- The dual-mode `generateMockAirports`: `count` airports, iteration `i`
consuming the 6 random draws `rs (6*i) .. rs (6*i+5)`. -/
def generateMockAirports (rs : Nat → ℚ) (count : Nat) : List Airport :=
  (List.range count).map (fun i => mkMockAirport (fun j => rs (6 * i + j)))

/-- The five `Math.random()` draws consumed when perturbing one flight, in
source order: latitude, longitude, altitude, speed, direction. -/
structure RandVec where
  r1 : ℚ
  r2 : ℚ
  r3 : ℚ
  r4 : ℚ
  r5 : ℚ

/-- One flight of the 5-second perturbation tick's `map` body. -/
def perturbFlight (v : RandVec) (f : Flight) : Flight :=
  { f with
    latitude := f.latitude + (v.r1 - 1/2) * (1/10)
    longitude := f.longitude + (v.r2 - 1/2) * (1/10)
    altitude := max 5000 (min 40000 (f.altitude + (v.r3 - 1/2) * 1000))
    speed := max 300 (min 800 (f.speed + (v.r4 - 1/2) * 50))
    direction := jsMod (f.direction + (v.r5 - 1/2) * 10 + 360) 360 }

/-- The perturbation tick applied along a list, record `i` consuming the
random draws `rv (start+i)`; auxiliary recursion of `perturbTick`. -/
def perturbList (rv : Nat → RandVec) : Nat → List Flight → List Flight
  | _, [] => []
  | i, f :: fs => perturbFlight (rv i) f :: perturbList rv (i + 1) fs

/-- The 5-second timer body: `prevFlights.map` of the nudge, record `i` using
the random draws `rv i`. -/
def perturbTick (rv : Nat → RandVec) (fs : List Flight) : List Flight :=
  perturbList rv 0 fs

/-- The two values of the dual-mode `searchType` selector. -/
inductive SMode
  | flight
  | airport
deriving DecidableEq

/-- The dual-mode component's state variables. -/
structure DState where
  flights : List Flight
  filteredFlights : List Flight
  airports : List Airport
  filteredAirports : List Airport
  selectedFlight : Option Flight
  selectedAirport : Option Airport
  error : Option (List Char)
  searchTerm : List Char
  searchType : SMode
  loading : Bool
deriving DecidableEq

/-- The flight-mode filter predicate of the dual-mode `handleSearch`. -/
def flightMatches (ql : List Char) (f : Flight) : Bool :=
  strContains (lowerStr f.flight_icao) ql || strContains (lowerStr f.flight_iata) ql

/-- The airport-mode filter predicate of the dual-mode `handleSearch`. -/
def airportMatches (ql : List Char) (a : Airport) : Bool :=
  strContains (lowerStr a.airport_name) ql ||
    strContains (lowerStr a.iata_code) ql ||
    strContains (lowerStr a.icao_code) ql

/-- The dual-mode `handleSearch`. -/
def handleSearch (s : DState) : DState :=
  if trimStr s.searchTerm = [] then
    { s with filteredFlights := s.flights, filteredAirports := [] }
  else
    let ql := lowerStr s.searchTerm
    match s.searchType with
    | SMode.flight =>
        { s with filteredFlights := s.flights.filter (flightMatches ql)
                 filteredAirports := [] }
    | SMode.airport =>
        { s with filteredAirports := s.airports.filter (airportMatches ql)
                 filteredFlights := [] }

/-- The dual-mode `fetchMockData` (its `try` body never throws in this model,
as in the source the generators are total): 100 mock flights from the stream
`rsF`, 50 mock airports from the stream `rsA`. -/
def fetchMockData (rsF rsA : Nat → ℚ) (s : DState) : DState :=
  { s with flights := generateMockFlights rsF 100
           filteredFlights := generateMockFlights rsF 100
           airports := generateMockAirports rsA 50
           filteredAirports := []
           error := none
           loading := false }

/-- Events of the dual-mode component, from the user and the timers. Marker clicks carry the
index of the rendered marker, which the source keys to the filtered list of
the active mode. -/
inductive Ev
  | load (rsF rsA : Nat → ℚ)
  | setTerm (q : List Char)
  | setMode (m : SMode)
  | perturb (rv : Nat → RandVec)
  | clickFlight (i : Nat)
  | clickAirport (i : Nat)

/-- One transition of the dual-mode component. Data/query/mode changes re-run
`handleSearch` (the `useEffect` on `[searchTerm, searchType, flights,
airports]`); marker clicks are guarded by the active mode and the rendered
(filtered) list. -/
def step (s : DState) : Ev → Option DState
  | Ev.load rsF rsA => some (handleSearch (fetchMockData rsF rsA s))
  | Ev.setTerm q => some (handleSearch { s with searchTerm := q })
  | Ev.setMode m => some (handleSearch { s with searchType := m })
  | Ev.perturb rv => some (handleSearch { s with flights := perturbTick rv s.flights })
  | Ev.clickFlight i =>
      if s.searchType = SMode.flight then
        (s.filteredFlights.get? i).map (fun f => { s with selectedFlight := some f })
      else none
  | Ev.clickAirport i =>
      if s.searchType = SMode.airport then
        (s.filteredAirports.get? i).map (fun a => { s with selectedAirport := some a })
      else none

/-- Run a sequence of events, failing if any click targets a marker that is
not rendered. -/
def run (s : DState) : List Ev → Option DState
  | [] => some s
  | e :: es =>
      match step s e with
      | some s2 => run s2 es
      | none => none

/-- The initial `useState` values of the dual-mode component. -/
def dInit : DState :=
  { flights := [], filteredFlights := [], airports := [], filteredAirports := []
    selectedFlight := none, selectedAirport := none, error := none
    searchTerm := [], searchType := SMode.flight, loading := true }

end Dual

/-- Runtime JavaScript values, as far as this program inspects them (JSON
values; `jnull` also stands for `undefined`). -/
inductive JVal
  | jnull
  | jbool (b : Bool)
  | jnum (q : ℚ)
  | jstr (s : List Char)
  | jarr (xs : List JVal)
  | jobj (fields : List (List Char × JVal))

/-- JavaScript truthiness of a value. -/
def jTruthy : JVal → Bool
  | JVal.jnull => false
  | JVal.jbool b => b
  | JVal.jnum q => decide (q ≠ 0)
  | JVal.jstr s => !s.isEmpty
  | JVal.jarr _ => true
  | JVal.jobj _ => true

/-- Association-list field lookup used to model property access `d.k` on an
object. -/
def assocGet : List (List Char × JVal) → List Char → Option JVal
  | [], _ => none
  | (k, v) :: rest, key => if k = key then some v else assocGet rest key

/-- Property access `d.k`: `undefined` (here `none`) on non-objects, which
only a guarded caller dereferences in the source. -/
def jGetField : JVal → List Char → Option JVal
  | JVal.jobj fs, k => assocGet fs k
  | _, _ => none

/-- Indexing `v[n]`: element of an array, one-character string of a string,
`undefined` (modelled `jnull`) otherwise or out of range. -/
def jIndex : JVal → Nat → JVal
  | JVal.jarr xs, n => xs.getD n JVal.jnull
  | JVal.jstr s, n =>
      match s.get? n with
      | some c => JVal.jstr [c]
      | none => JVal.jnull
  | _, _ => JVal.jnull

namespace Single

/-- The single-mode variant's `Flight` interface. The TypeScript field types
are not checked at runtime, so each field holds whatever runtime value the
positional mapping produced; the synthetic generator fills them with the
declared types. -/
structure Flight where
  icao24 : JVal
  callsign : JVal
  origin_country : JVal
  time_position : JVal
  last_contact : JVal
  longitude : JVal
  latitude : JVal
  baro_altitude : JVal
  on_ground : JVal
  velocity : JVal
  true_track : JVal
  vertical_rate : JVal
  sensors : JVal
  geo_altitude : JVal
  squawk : JVal
  spi : JVal
  position_source : JVal

/-- Country names used by the single-mode `generateMockFlights`. -/
def countries : List (List Char) :=
  ["USA".toList, "UK".toList, "France".toList, "Germany".toList,
   "Japan".toList, "Canada".toList, "Australia".toList, "Brazil".toList,
   "China".toList, "India".toList]

/-- Airline codes used by the single-mode `generateMockFlights`. -/
def airlines : List (List Char) :=
  ["AAL".toList, "BAW".toList, "DLH".toList, "AFR".toList, "UAL".toList,
   "SIA".toList, "QFA".toList, "JAL".toList, "ANA".toList, "KAL".toList]

/-- Hexadecimal digit character. -/
def hexDigit (n : Nat) : Char :=
  if n < 10 then Char.ofNat (48 + n) else Char.ofNat (87 + n)

/-- The first `k` base-16 fraction digits of `r`, modelling
`Math.random().toString(16).substr(2, 6)` (the source's shortest-form float
printing may drop trailing zeros; the digits produced agree). -/
def hexFracDigits (r : ℚ) (k : Nat) : List Char :=
  (List.range k).map (fun i => hexDigit (Int.toNat ⌊r * 16 ^ (i + 1)⌋ % 16))

/-- One flight of the single-mode `generateMockFlights` loop body; `r j` is
the j-th `Math.random()` call of the iteration, in source order, and `now`
is `Date.now()` in milliseconds. -/
def mkMockFlight (r : Nat → ℚ) (now : ℚ) : Flight :=
  let airline := airlines.getD (Int.toNat ⌊r 1 * 10⌋) []
  let flightNumber := Int.toNat ⌊r 2 * 9000⌋ + 1000
  { icao24 := JVal.jstr (hexFracDigits (r 0) 6)
    callsign := JVal.jstr (airline ++ Dual.natDigits flightNumber)
    origin_country := JVal.jstr (countries.getD (Int.toNat ⌊r 3 * 10⌋) [])
    time_position := JVal.jnum ((⌊now / 1000⌋ : ℤ) : ℚ)
    last_contact := JVal.jnum ((⌊now / 1000⌋ : ℤ) : ℚ)
    longitude := JVal.jnum (r 4 * 360 - 180)
    latitude := JVal.jnum (r 5 * 180 - 90)
    baro_altitude := JVal.jnum (r 6 * 10000 + 1000)
    on_ground := JVal.jbool (decide ((9 : ℚ)/10 < r 7))
    velocity := JVal.jnum (r 8 * 300 + 400)
    true_track := JVal.jnum (r 9 * 360)
    vertical_rate := JVal.jnum ((r 10 - 1/2) * 20)
    sensors := JVal.jnull
    geo_altitude := JVal.jnum (r 11 * 10000 + 1000)
    squawk := JVal.jstr (Dual.natDigits (Int.toNat ⌊r 12 * 9000 + 1000⌋))
    spi := JVal.jbool false
    position_source := JVal.jnum ((⌊r 13 * 3⌋ : ℤ) : ℚ) }

/-- The single-mode `generateMockFlights`: `count` flights, iteration `i`
consuming the 14 random draws `rs (14*i) .. rs (14*i+13)`. -/
def generateMockFlights (rs : Nat → ℚ) (now : ℚ) (count : Nat) : List Flight :=
  (List.range count).map (fun i => mkMockFlight (fun j => rs (14 * i + j)) now)

/-- The placeholder callsign. -/
def nA : List Char := "N/A".toList

/-- Model of `state[1]?.trim() || "N/A"`: `null`/`undefined` and the empty
trimmed string yield "N/A"; calling `.trim()` on any other non-string value
throws a TypeError, which the source's `catch` turns into the fallback. -/
def jsCallsign : JVal → Except Unit JVal
  | JVal.jnull => Except.ok (JVal.jstr nA)
  | JVal.jstr c =>
      Except.ok (JVal.jstr (if trimStr c = [] then nA else trimStr c))
  | _ => Except.error ()

/-- The positional mapping of one element of `response.data.states` into a
`Flight` (source lines 114-132). -/
def mapState (s : JVal) : Except Unit Flight :=
  match jsCallsign (jIndex s 1) with
  | Except.error e => Except.error e
  | Except.ok cs =>
      Except.ok
        { icao24 := jIndex s 0
          callsign := cs
          origin_country := jIndex s 2
          time_position := jIndex s 3
          last_contact := jIndex s 4
          longitude := jIndex s 5
          latitude := jIndex s 6
          baro_altitude := jIndex s 7
          on_ground := jIndex s 8
          velocity := jIndex s 9
          true_track := jIndex s 10
          vertical_rate := jIndex s 11
          sensors := jIndex s 12
          geo_altitude := jIndex s 13
          squawk := jIndex s 14
          spi := jIndex s 15
          position_source := jIndex s 16 }

/-- Model of `response.data.states.map(...)`, with exception propagation. -/
def mapStates : List JVal → Except Unit (List Flight)
  | [] => Except.ok []
  | s :: rest =>
      match mapState s, mapStates rest with
      | Except.ok f, Except.ok fs => Except.ok (f :: fs)
      | Except.error e, _ => Except.error e
      | _, Except.error e => Except.error e

/-- Outcome of the awaited `axios.get` call: a rejection (network error,
non-2xx), or a response carrying its `data` value. -/
inductive FetchOutcome
  | netError (msg : List Char)
  | response (data : JVal)

/-- The fields of the Snapshot the single-mode `fetchFlights` publishes. -/
structure FetchResult where
  flights : List Flight
  error : Option (List Char)
  usingMockData : Bool

/-- The error message recorded on the fallback path. -/
def mockErrMsg : List Char :=
  "Failed to fetch real flight data. Using mock data instead.".toList

/-- The key of the states array in the response payload. -/
def statesKey : List Char := "states".toList

/-- The fallback branch of `fetchFlights` (its `catch` block). -/
def fallbackResult (rs : Nat → ℚ) (now : ℚ) : FetchResult :=
  { flights := generateMockFlights rs now 100
    error := some mockErrMsg
    usingMockData := true }

/-- The `try` body applied to a response: `some` flight list when
`response.data` is truthy, `response.data.states` is an array and the
positional mapping throws nowhere; `none` when the body throws. -/
def liveAttempt (d : JVal) : Option (List Flight) :=
  if jTruthy d then
    match jGetField d statesKey with
    | some (JVal.jarr xs) =>
        match mapStates xs with
        | Except.ok fs => some fs
        | Except.error _ => none
    | _ => none
  else none

/-- The single-mode `fetchFlights`, as a total function of the fetch outcome:
it always produces a Snapshot, converting every failure into the synthetic
fallback. -/
def fetchResult (rs : Nat → ℚ) (now : ℚ) : FetchOutcome → FetchResult
  | FetchOutcome.netError _ => fallbackResult rs now
  | FetchOutcome.response d =>
      match liveAttempt d with
      | some fs => { flights := fs, error := none, usingMockData := false }
      | none => fallbackResult rs now

/-- The failure cases of the live fetch: network rejection, falsy payload,
missing or non-array `states` field, or a mapping exception. -/
def fetchFails : FetchOutcome → Prop
  | FetchOutcome.netError _ => True
  | FetchOutcome.response d =>
      jTruthy d = false ∨
      (∀ xs, jGetField d statesKey ≠ some (JVal.jarr xs)) ∨
      (∃ xs e, jGetField d statesKey = some (JVal.jarr xs) ∧
        mapStates xs = Except.error e)

/-- Case-insensitive substring match of a query against a string-valued
field. On a non-string field the source's `.toLowerCase()` throws a
TypeError instead of evaluating to false — `flightMatchE` below models that
throw; this Bool-valued form is the match predicate for string-valued
fields. -/
def jMatch (v : JVal) (ql : List Char) : Bool :=
  match v with
  | JVal.jstr s => strContains (lowerStr s) ql
  | _ => false

/-- The single-mode component's state variables. -/
structure SState where
  flights : List Flight
  filteredFlights : List Flight
  selectedFlight : Option Flight
  error : Option (List Char)
  searchTerm : List Char
  loading : Bool
  usingMockData : Bool

/-- The single-mode `handleSearch`, rendered total by reading a non-string
field as a no-match (the callsign conjunct keeps the source's truthiness
guard `flight.callsign && ...`). Where the source's predicate throws a
TypeError on a non-string field, the faithful partial version is
`handleSearchE` below; this total rendering is engaged only through its
empty-query branch and through the state fields the predicate cannot touch
(the selection in particular). -/
def handleSearch (t : SState) : SState :=
  if trimStr t.searchTerm = [] then { t with filteredFlights := t.flights }
  else
    let ql := lowerStr t.searchTerm
    { t with filteredFlights :=
        (t.flights.filter (fun f =>
          jMatch f.icao24 ql || (jTruthy f.callsign && jMatch f.callsign ql))) }

/-- One evaluation of the single-mode filter predicate
`flight.icao24.toLowerCase().includes(q) ||
(flight.callsign && flight.callsign.toLowerCase().includes(q))`, with
JavaScript's short-circuit order and its TypeError: calling `.toLowerCase()`
on a non-string value throws, modelled as `Except.error`. -/
def flightMatchE (ql : List Char) (f : Flight) : Except Unit Bool :=
  match f.icao24 with
  | JVal.jstr a =>
      if strContains (lowerStr a) ql then Except.ok true
      else if jTruthy f.callsign then
        match f.callsign with
        | JVal.jstr b => Except.ok (strContains (lowerStr b) ql)
        | _ => Except.error ()
      else Except.ok false
  | _ => Except.error ()

/-- Model of `Array.prototype.filter` with a predicate that can throw: the
elements are visited in order and the first exception propagates. -/
def filterE {α : Type} (p : α → Except Unit Bool) : List α → Except Unit (List α)
  | [] => Except.ok []
  | x :: xs =>
      match p x, filterE p xs with
      | Except.ok b, Except.ok rest => Except.ok (if b then x :: rest else rest)
      | Except.error e, _ => Except.error e
      | _, Except.error e => Except.error e

/-- The single-mode `handleSearch` with the filter predicate's possible
TypeError propagated: on a flight list containing a non-string searched
field the source's `handleSearch` throws instead of producing a subset. -/
def handleSearchE (t : SState) : Except Unit SState :=
  if trimStr t.searchTerm = [] then
    Except.ok { t with filteredFlights := t.flights }
  else
    match filterE (flightMatchE (lowerStr t.searchTerm)) t.flights with
    | Except.ok fs => Except.ok { t with filteredFlights := fs }
    | Except.error e => Except.error e

/-- A refresh: `fetchFlights` publishes its Snapshot into the state, then the
`useEffect` on `[searchTerm, flights]` re-runs `handleSearch`. -/
def applyFetch (rs : Nat → ℚ) (now : ℚ) (o : FetchOutcome) (t : SState) : SState :=
  let r := fetchResult rs now o
  handleSearch
    { t with flights := r.flights
             filteredFlights := r.flights
             error := r.error
             usingMockData := r.usingMockData
             loading := false }

end Single

/-! ### Helper lemmas -/

theorem length_generateMockFlightsD (rs : Nat → ℚ) (n : Nat) :
    (Dual.generateMockFlights rs n).length = n := by
  simp [Dual.generateMockFlights]

theorem length_generateMockAirportsD (rs : Nat → ℚ) (n : Nat) :
    (Dual.generateMockAirports rs n).length = n := by
  simp [Dual.generateMockAirports]

theorem length_generateMockFlightsS (rs : Nat → ℚ) (now : ℚ) (n : Nat) :
    (Single.generateMockFlights rs now n).length = n := by
  simp [Single.generateMockFlights]

theorem jsMod_nonneg_lt (a n : ℚ) (hn : 0 < n) (ha : 0 ≤ a) :
    0 ≤ jsMod a n ∧ jsMod a n < n := by
  have hn0 : n ≠ 0 := ne_of_gt hn
  have hq : 0 ≤ a / n := div_nonneg ha (le_of_lt hn)
  have ht : ratTrunc (a / n) = ⌊a / n⌋ := by simp [ratTrunc, hq]
  have key : jsMod a n = n * Int.fract (a / n) := by
    rw [jsMod, ht, Int.fract]
    field_simp
  constructor
  · rw [key]; exact mul_nonneg (le_of_lt hn) (Int.fract_nonneg _)
  · rw [key]
    calc n * Int.fract (a / n) < n * 1 :=
          (mul_lt_mul_left hn).mpr (Int.fract_lt_one _)
      _ = n := mul_one n

theorem perturbList_get (rv : Nat → Dual.RandVec) (j i : Nat) (fs : List Dual.Flight) :
    (Dual.perturbList rv j fs).get? i =
      (fs.get? i).map (fun f => Dual.perturbFlight (rv (j + i)) f) := by
  induction fs generalizing j i with
  | nil => simp [Dual.perturbList]
  | cons f fs ih =>
      cases i with
      | zero => simp [Dual.perturbList]
      | succ k =>
          have hidx : j + (k + 1) = (j + 1) + k := by omega
          simp only [Dual.perturbList, List.get?_cons_succ]
          rw [hidx, ih (j + 1) k]

theorem perturbList_length (rv : Nat → Dual.RandVec) (j : Nat) (fs : List Dual.Flight) :
    (Dual.perturbList rv j fs).length = fs.length := by
  induction fs generalizing j with
  | nil => rfl
  | cons f fs ih => simp [Dual.perturbList, ih]

/-- A concrete random draw vector used by witnesses. -/
def demoRand : Dual.RandVec := ⟨1/2, 1/2, 1/2, 1/2, 1/2⟩

/-- A concrete random draw stream used by witnesses. -/
def demoRV : Nat → Dual.RandVec := fun _ => demoRand

/-- A concrete dual-mode flight used by witnesses. -/
def demoFlight : Dual.Flight :=
  { flight_icao := "AA1000".toList, flight_iata := "AA100".toList
    dep_iata := "JFK".toList, arr_iata := "LAX".toList
    airline_icao := "AAA".toList, airline_iata := "AA".toList
    latitude := 0, longitude := 0, altitude := 20000, speed := 500
    status := "active".toList, direction := 180 }

/-- Claim C4: after one perturbation tick of the dual-mode variant, for every
record, the position deltas are within ±0.05°, the altitude delta is at most
500 before clamping and the altitude lies in [5000, 40000] after clamping,
the speed delta is at most 25 before clamping and the speed lies in
[300, 800] after clamping, and the heading is the old heading plus a delta
within ±5° reduced modulo 360 into [0, 360). -/
theorem c4_perturbation_bounds (v : Dual.RandVec) (f : Dual.Flight)
    (h1 : 0 ≤ v.r1 ∧ v.r1 < 1) (h2 : 0 ≤ v.r2 ∧ v.r2 < 1)
    (h3 : 0 ≤ v.r3 ∧ v.r3 < 1) (h4 : 0 ≤ v.r4 ∧ v.r4 < 1)
    (h5 : 0 ≤ v.r5 ∧ v.r5 < 1)
    (hdir : 0 ≤ f.direction ∧ f.direction < 360) :
    |(Dual.perturbFlight v f).latitude - f.latitude| ≤ 1/20 ∧
    |(Dual.perturbFlight v f).longitude - f.longitude| ≤ 1/20 ∧
    |(f.altitude + (v.r3 - 1/2) * 1000) - f.altitude| ≤ 500 ∧
    5000 ≤ (Dual.perturbFlight v f).altitude ∧
    (Dual.perturbFlight v f).altitude ≤ 40000 ∧
    |(f.speed + (v.r4 - 1/2) * 50) - f.speed| ≤ 25 ∧
    300 ≤ (Dual.perturbFlight v f).speed ∧
    (Dual.perturbFlight v f).speed ≤ 800 ∧
    |(v.r5 - 1/2) * 10| ≤ 5 ∧
    (Dual.perturbFlight v f).direction =
      jsMod (f.direction + (v.r5 - 1/2) * 10 + 360) 360 ∧
    0 ≤ (Dual.perturbFlight v f).direction ∧
    (Dual.perturbFlight v f).direction < 360 := by
  obtain ⟨h1a, h1b⟩ := h1
  obtain ⟨h2a, h2b⟩ := h2
  obtain ⟨h3a, h3b⟩ := h3
  obtain ⟨h4a, h4b⟩ := h4
  obtain ⟨h5a, h5b⟩ := h5
  obtain ⟨hda, hdb⟩ := hdir
  have hmod := jsMod_nonneg_lt (f.direction + (v.r5 - 1/2) * 10 + 360) 360
    (by norm_num) (by nlinarith)
  refine ⟨?_, ?_, ?_, le_max_left _ _,
    max_le (by norm_num) (min_le_left _ _), ?_, le_max_left _ _,
    max_le (by norm_num) (min_le_left _ _), ?_, rfl, hmod.1, hmod.2⟩
  · show |f.latitude + (v.r1 - 1/2) * (1/10) - f.latitude| ≤ 1/20
    have e : f.latitude + (v.r1 - 1/2) * (1/10) - f.latitude
        = (v.r1 - 1/2) * (1/10) := by ring
    rw [e, abs_le]
    constructor <;> nlinarith
  · show |f.longitude + (v.r2 - 1/2) * (1/10) - f.longitude| ≤ 1/20
    have e : f.longitude + (v.r2 - 1/2) * (1/10) - f.longitude
        = (v.r2 - 1/2) * (1/10) := by ring
    rw [e, abs_le]
    constructor <;> nlinarith
  · have e : f.altitude + (v.r3 - 1/2) * 1000 - f.altitude
        = (v.r3 - 1/2) * 1000 := by ring
    rw [e, abs_le]
    constructor <;> nlinarith
  · have e : f.speed + (v.r4 - 1/2) * 50 - f.speed = (v.r4 - 1/2) * 50 := by
      ring
    rw [e, abs_le]
    constructor <;> nlinarith
  · rw [abs_le]
    constructor <;> nlinarith

/-- Witness instantiating `c4_perturbation_bounds` at concrete inputs. -/
theorem c4_perturbation_bounds_witness :
    0 ≤ (Dual.perturbFlight demoRand demoFlight).direction ∧
    (Dual.perturbFlight demoRand demoFlight).direction < 360 ∧
    5000 ≤ (Dual.perturbFlight demoRand demoFlight).altitude := by
  have h := c4_perturbation_bounds demoRand demoFlight
    (by norm_num [demoRand]) (by norm_num [demoRand]) (by norm_num [demoRand])
    (by norm_num [demoRand]) (by norm_num [demoRand])
    (by norm_num [demoFlight])
  obtain ⟨-, -, -, ha, -, -, -, -, -, -, hd1, hd2⟩ := h
  exact ⟨hd1, hd2, ha⟩

/-- Claim C5: a perturbation tick does not resize the flight list, record `i`
of the output is the nudge of record `i` of the input, and the nudge changes
only latitude, longitude, altitude, speed, and direction — every other field,
including the `flight_icao` identity, is unchanged. -/
theorem c5_perturbation_frame (rv : Nat → Dual.RandVec) (fs : List Dual.Flight) :
    (Dual.perturbTick rv fs).length = fs.length ∧
    (∀ i f, fs.get? i = some f →
      (Dual.perturbTick rv fs).get? i = some (Dual.perturbFlight (rv i) f)) ∧
    (∀ v f, (Dual.perturbFlight v f).flight_icao = f.flight_icao ∧
      (Dual.perturbFlight v f).flight_iata = f.flight_iata ∧
      (Dual.perturbFlight v f).dep_iata = f.dep_iata ∧
      (Dual.perturbFlight v f).arr_iata = f.arr_iata ∧
      (Dual.perturbFlight v f).airline_icao = f.airline_icao ∧
      (Dual.perturbFlight v f).airline_iata = f.airline_iata ∧
      (Dual.perturbFlight v f).status = f.status) := by
  refine ⟨perturbList_length rv 0 fs, ?_, ?_⟩
  · intro i f hf
    rw [Dual.perturbTick, perturbList_get, hf]
    simp
  · intro v f
    exact ⟨rfl, rfl, rfl, rfl, rfl, rfl, rfl⟩

/-- Witness instantiating `c5_perturbation_frame` at concrete inputs. -/
theorem c5_perturbation_frame_witness :
    (Dual.perturbTick demoRV [demoFlight]).get? 0 =
      some (Dual.perturbFlight (demoRV 0) demoFlight) ∧
    (Dual.perturbFlight (demoRV 0) demoFlight).flight_icao =
      demoFlight.flight_icao := by
  have h := c5_perturbation_frame demoRV [demoFlight]
  exact ⟨h.2.1 0 demoFlight rfl, (h.2.2 (demoRV 0) demoFlight).1⟩

theorem trimStr_ne_nil {s : List Char} (h : trimStr s ≠ []) : s ≠ [] := by
  intro hs
  exact h (by simp [hs, trimStr])

theorem lowerStr_ne_nil {s : List Char} (h : s ≠ []) : lowerStr s ≠ [] := by
  simp [lowerStr, h]

theorem jMatch_guard (v : JVal) (ql : List Char) (hq : ql ≠ []) :
    (jTruthy v && Single.jMatch v ql) = Single.jMatch v ql := by
  cases v with
  | jstr s =>
      cases s with
      | nil =>
          cases ql with
          | nil => exact absurd rfl hq
          | cons c t => simp [Single.jMatch, jTruthy, lowerStr, strContains]
      | cons c t => simp [Single.jMatch, jTruthy]
  | jnull => simp [Single.jMatch, jTruthy]
  | jbool b => simp [Single.jMatch, jTruthy]
  | jnum q => simp [Single.jMatch, jTruthy]
  | jarr xs => simp [Single.jMatch, jTruthy]
  | jobj fs => simp [Single.jMatch, jTruthy]

/-- A concrete dual-mode airport used by counterexamples and witnesses. -/
def demoAirport : Dual.Airport :=
  { airport_name := "NNN International Airport".toList
    iata_code := "NNN".toList, icao_code := "KNNN".toList
    latitude := "0.000000".toList, longitude := "0.000000".toList
    country_name := "USA".toList, city_iata_code := "NN".toList }

/-- A dual-mode state in airport mode with an empty query and one airport. -/
def c1State : Dual.DState :=
  { Dual.dInit with airports := [demoAirport], searchType := Dual.SMode.airport }

/-- Claim C1, counterexample: in the dual-mode variant with `searchType`
airport and an empty trimmed query, `handleSearch` does not return the active
mode's list — it clears the airport subset to empty even though the airport
list is non-empty (the flight subset, not the active mode's subset, receives
the full list). -/
theorem c1_empty_query_counterexample :
    trimStr c1State.searchTerm = [] ∧
    c1State.searchType = Dual.SMode.airport ∧
    c1State.airports = [demoAirport] ∧
    (Dual.handleSearch c1State).filteredAirports = [] ∧
    (Dual.handleSearch c1State).filteredAirports ≠ c1State.airports := by
  refine ⟨rfl, rfl, rfl, rfl, ?_⟩
  have h4 : (Dual.handleSearch c1State).filteredAirports = [] := rfl
  have h3 : c1State.airports = [demoAirport] := rfl
  rw [h4, h3]
  simp

/-- Claim C1 (amended): with an empty trimmed query the single-mode
`handleSearch` returns the full list unchanged, and the dual-mode
`handleSearch` sets the filtered flight subset to the full flight list and
the filtered airport subset to empty — regardless of the active mode, so in
airport mode the active list is cleared rather than preserved. -/
theorem c1_empty_query_amended (s : Dual.DState) (t : Single.SState)
    (hd : trimStr s.searchTerm = []) (hs : trimStr t.searchTerm = []) :
    (Dual.handleSearch s).filteredFlights = s.flights ∧
    (Dual.handleSearch s).filteredAirports = [] ∧
    (Single.handleSearch t).filteredFlights = t.flights := by
  unfold Dual.handleSearch Single.handleSearch
  rw [if_pos hd, if_pos hs]
  exact ⟨rfl, rfl, rfl⟩

/-- Witness instantiating `c1_empty_query_amended` at concrete states. -/
theorem c1_empty_query_amended_witness :
    (Dual.handleSearch c1State).filteredFlights = c1State.flights ∧
    (Dual.handleSearch c1State).filteredAirports = [] := by
  have h := c1_empty_query_amended c1State
    { flights := [], filteredFlights := [], selectedFlight := none
      error := none, searchTerm := [], loading := true, usingMockData := false }
    rfl rfl
  exact ⟨h.1, h.2.1⟩

/-- Claim C10: after every dual-mode `handleSearch`, at least one of the two
filtered subsets is empty; and an empty trimmed query always sets the
filtered flight subset to the full flight list and the filtered airport
subset to empty, whatever the active mode. -/
theorem c10_subset_exclusion (s : Dual.DState) :
    ((Dual.handleSearch s).filteredFlights = [] ∨
      (Dual.handleSearch s).filteredAirports = []) ∧
    (trimStr s.searchTerm = [] →
      (Dual.handleSearch s).filteredFlights = s.flights ∧
      (Dual.handleSearch s).filteredAirports = []) := by
  unfold Dual.handleSearch
  by_cases h : trimStr s.searchTerm = []
  · rw [if_pos h]
    exact ⟨Or.inr rfl, fun _ => ⟨rfl, rfl⟩⟩
  · rw [if_neg h]
    cases hm : s.searchType with
    | flight => exact ⟨Or.inr rfl, fun hc => absurd hc h⟩
    | airport => exact ⟨Or.inl rfl, fun hc => absurd hc h⟩

/-- Witness instantiating `c10_subset_exclusion` at a concrete state. -/
theorem c10_subset_exclusion_witness :
    ((Dual.handleSearch c1State).filteredFlights = [] ∨
      (Dual.handleSearch c1State).filteredAirports = []) ∧
    (Dual.handleSearch c1State).filteredFlights = c1State.flights := by
  have h := c10_subset_exclusion c1State
  exact ⟨h.1, (h.2 rfl).1⟩

theorem flightMatchE_error {ql : List Char} {f : Single.Flight}
    (ha : ∀ a, f.icao24 ≠ JVal.jstr a) :
    Single.flightMatchE ql f = Except.error () := by
  unfold Single.flightMatchE
  cases hi : f.icao24 with
  | jstr a => exact absurd hi (ha a)
  | jnull => rfl
  | jbool b => rfl
  | jnum q => rfl
  | jarr xs => rfl
  | jobj fs => rfl

theorem flightMatchE_ok {ql : List Char} (hq : ql ≠ []) {f : Single.Flight}
    (ha : ∃ a, f.icao24 = JVal.jstr a)
    (hcs : (∃ b, f.callsign = JVal.jstr b) ∨ jTruthy f.callsign = false) :
    Single.flightMatchE ql f =
      Except.ok (Single.jMatch f.icao24 ql || Single.jMatch f.callsign ql) := by
  obtain ⟨a, ha⟩ := ha
  have hJ : Single.jMatch f.icao24 ql = strContains (lowerStr a) ql := by
    rw [ha]
    rfl
  rw [hJ]
  simp only [Single.flightMatchE, ha]
  by_cases hm : strContains (lowerStr a) ql = true
  · simp [hm]
  · simp only [Bool.not_eq_true] at hm
    rw [hm]
    by_cases htr : jTruthy f.callsign = true
    · rcases hcs with ⟨b, hb⟩ | hfalse
      · rw [hb] at htr
        simp [Single.jMatch, hb, htr]
      · rw [hfalse] at htr
        exact Bool.noConfusion htr
    · have hcf : Single.jMatch f.callsign ql = false := by
        have hg := jMatch_guard f.callsign ql hq
        rw [← hg]
        simp only [Bool.not_eq_true] at htr
        rw [htr]
        simp
      simp [htr, hcf]

theorem filterE_error {ql : List Char} {f : Single.Flight}
    {fs : List Single.Flight} (hf : f ∈ fs)
    (herr : Single.flightMatchE ql f = Except.error ()) :
    Single.filterE (Single.flightMatchE ql) fs = Except.error () := by
  induction fs with
  | nil => cases hf
  | cons g gs ih =>
      rcases List.mem_cons.mp hf with heq | hmem
      · subst heq
        simp [Single.filterE, herr]
      · have hrest := ih hmem
        rcases hpg : Single.flightMatchE ql g with e | b
        · cases e
          simp [Single.filterE, hpg]
        · simp [Single.filterE, hpg, hrest]

theorem filterE_ok {ql : List Char} (hq : ql ≠ []) (fs : List Single.Flight)
    (h : ∀ f ∈ fs, (∃ a, f.icao24 = JVal.jstr a) ∧
      ((∃ b, f.callsign = JVal.jstr b) ∨ jTruthy f.callsign = false)) :
    Single.filterE (Single.flightMatchE ql) fs =
      Except.ok (fs.filter (fun f =>
        Single.jMatch f.icao24 ql || Single.jMatch f.callsign ql)) := by
  induction fs with
  | nil => rfl
  | cons f fs ih =>
      obtain ⟨hf1, hf2⟩ := h f (List.mem_cons_self f fs)
      have hp := flightMatchE_ok hq hf1 hf2
      have hrest := ih (fun g hg => h g (List.mem_cons_of_mem f hg))
      simp [Single.filterE, hp, hrest, List.filter_cons]

/-- Claim C3: for a query whose trimmed form is non-empty, the filter output
is exactly the records of the input list for which at least one of the mode's
configured fields (flights: `flight_icao` / `flight_iata`, or `icao24` /
`callsign` in the single-mode variant; airports: name, IATA code, ICAO code)
contains the query as a case-insensitive substring, and the output preserves
the relative order of the input list (it is a sublist of it). The single-mode
variant's searched fields are unchecked runtime values, so its conjunct is
stated of `handleSearchE`, the faithful partial filter: on lists whose
searched fields are strings (as the spec's data model and all generated data
have them) it succeeds with exactly the matching records in order, and the
last conjunct shows that on a record with a non-string identity field it
propagates the TypeError the source's predicate throws instead of producing
a subset. -/
theorem c3_substring_filter (s : Dual.DState) (h : trimStr s.searchTerm ≠ []) :
    (s.searchType = Dual.SMode.flight →
      (Dual.handleSearch s).filteredFlights =
        s.flights.filter (Dual.flightMatches (lowerStr s.searchTerm)) ∧
      (∀ f, f ∈ (Dual.handleSearch s).filteredFlights ↔
        f ∈ s.flights ∧ Dual.flightMatches (lowerStr s.searchTerm) f = true) ∧
      ((Dual.handleSearch s).filteredFlights).Sublist s.flights) ∧
    (s.searchType = Dual.SMode.airport →
      (Dual.handleSearch s).filteredAirports =
        s.airports.filter (Dual.airportMatches (lowerStr s.searchTerm)) ∧
      (∀ a, a ∈ (Dual.handleSearch s).filteredAirports ↔
        a ∈ s.airports ∧ Dual.airportMatches (lowerStr s.searchTerm) a = true) ∧
      ((Dual.handleSearch s).filteredAirports).Sublist s.airports) ∧
    (∀ t : Single.SState, trimStr t.searchTerm ≠ [] →
      (∀ f ∈ t.flights, (∃ a, f.icao24 = JVal.jstr a) ∧
        ((∃ b, f.callsign = JVal.jstr b) ∨ jTruthy f.callsign = false)) →
      Single.handleSearchE t = Except.ok { t with filteredFlights :=
        (t.flights.filter (fun f =>
          Single.jMatch f.icao24 (lowerStr t.searchTerm) ||
            Single.jMatch f.callsign (lowerStr t.searchTerm))) } ∧
      (t.flights.filter (fun f =>
          Single.jMatch f.icao24 (lowerStr t.searchTerm) ||
            Single.jMatch f.callsign (lowerStr t.searchTerm))).Sublist
        t.flights) ∧
    (∀ (t : Single.SState) (f : Single.Flight), trimStr t.searchTerm ≠ [] →
      f ∈ t.flights → (∀ a, f.icao24 ≠ JVal.jstr a) →
      Single.handleSearchE t = Except.error ()) := by
  refine ⟨?_, ?_, ?_, ?_⟩
  · intro hm
    have he : (Dual.handleSearch s).filteredFlights =
        s.flights.filter (Dual.flightMatches (lowerStr s.searchTerm)) := by
      unfold Dual.handleSearch
      rw [if_neg h, hm]
    refine ⟨he, ?_, ?_⟩
    · intro f
      rw [he]
      exact List.mem_filter
    · rw [he]
      exact List.filter_sublist s.flights
  · intro hm
    have he : (Dual.handleSearch s).filteredAirports =
        s.airports.filter (Dual.airportMatches (lowerStr s.searchTerm)) := by
      unfold Dual.handleSearch
      rw [if_neg h, hm]
    refine ⟨he, ?_, ?_⟩
    · intro a
      rw [he]
      exact List.mem_filter
    · rw [he]
      exact List.filter_sublist s.airports
  · intro t ht hgood
    have hq : lowerStr t.searchTerm ≠ [] :=
      lowerStr_ne_nil (trimStr_ne_nil ht)
    have hfe := filterE_ok hq t.flights hgood
    constructor
    · unfold Single.handleSearchE
      rw [if_neg ht, hfe]
    · exact List.filter_sublist t.flights
  · intro t f ht hf hnostr
    unfold Single.handleSearchE
    rw [if_neg ht, filterE_error hf (flightMatchE_error hnostr)]

/-- A dual-mode state in flight mode with a non-empty query. -/
def c3State : Dual.DState :=
  { Dual.dInit with flights := [demoFlight], searchTerm := ['a', 'a'] }

/-- A single-mode flight whose searched fields are strings. -/
def c3SFlight : Single.Flight :=
  { icao24 := JVal.jstr ['d', 'l'], callsign := JVal.jstr ['d', 'l', '1']
    origin_country := JVal.jnull, time_position := JVal.jnull
    last_contact := JVal.jnull, longitude := JVal.jnull
    latitude := JVal.jnull, baro_altitude := JVal.jnull
    on_ground := JVal.jnull, velocity := JVal.jnull, true_track := JVal.jnull
    vertical_rate := JVal.jnull, sensors := JVal.jnull
    geo_altitude := JVal.jnull, squawk := JVal.jnull, spi := JVal.jnull
    position_source := JVal.jnull }

/-- A single-mode state searching "DL" over one string-fielded flight. -/
def c3SState : Single.SState :=
  { flights := [c3SFlight], filteredFlights := [], selectedFlight := none
    error := none, searchTerm := ['D', 'L'], loading := false
    usingMockData := true }

/-- Witness instantiating `c3_substring_filter` at concrete states of both
variants, with the filters evaluated on them. -/
theorem c3_substring_filter_witness :
    (Dual.handleSearch c3State).filteredFlights =
      c3State.flights.filter (Dual.flightMatches (lowerStr c3State.searchTerm)) ∧
    (Dual.handleSearch c3State).filteredFlights = [demoFlight] ∧
    Single.handleSearchE c3SState =
      Except.ok { c3SState with filteredFlights := [c3SFlight] } := by
  refine ⟨((c3_substring_filter c3State (by decide)).1 rfl).1, by decide, ?_⟩
  have hgood : ∀ f ∈ c3SState.flights, (∃ a, f.icao24 = JVal.jstr a) ∧
      ((∃ b, f.callsign = JVal.jstr b) ∨ jTruthy f.callsign = false) := by
    intro f hf
    have hfe : f = c3SFlight := by
      simpa [c3SState] using hf
    subst hfe
    exact ⟨⟨['d', 'l'], rfl⟩, Or.inl ⟨['d', 'l', '1'], rfl⟩⟩
  have h := ((c3_substring_filter c3State (by decide)).2.2.1 c3SState
    (by decide) hgood).1
  have hev : c3SState.flights.filter (fun f =>
      Single.jMatch f.icao24 (lowerStr c3SState.searchTerm) ||
        Single.jMatch f.callsign (lowerStr c3SState.searchTerm)) =
      [c3SFlight] := rfl
  rw [hev] at h
  exact h

/-- A concrete random stream used by witnesses. -/
def halfStream : Nat → ℚ := fun _ => 1/2

theorem liveAttempt_fails {d : JVal}
    (h : Single.fetchFails (Single.FetchOutcome.response d)) :
    Single.liveAttempt d = none := by
  rcases h with h | h | ⟨xs, e, hxs, hmap⟩
  · simp [Single.liveAttempt, h]
  · unfold Single.liveAttempt
    by_cases ht : jTruthy d
    · rw [if_pos ht]
      rcases hv : jGetField d Single.statesKey with _ | v
      · rfl
      · cases v with
        | jarr ys => exact absurd hv (h ys)
        | jnull => rfl
        | jbool b => rfl
        | jnum q => rfl
        | jstr c => rfl
        | jobj fs => rfl
    · rw [if_neg ht]
  · unfold Single.liveAttempt
    have ht : jTruthy d = true := by
      cases d with
      | jobj fs => rfl
      | jnull => exact absurd hxs (by simp [jGetField])
      | jbool b => exact absurd hxs (by simp [jGetField])
      | jnum q => exact absurd hxs (by simp [jGetField])
      | jstr c => exact absurd hxs (by simp [jGetField])
      | jarr ys => exact absurd hxs (by simp [jGetField])
    rw [if_pos ht, hxs]
    simp [hmap]

/-- Claim C2: the single-mode `fetchFlights` is a total function into
Snapshots (it never raises to its caller), and on every failure outcome —
network rejection, falsy or malformed payload, non-array `states`, or a
mapping exception — the Snapshot is synthetic (`usingMockData = true`),
contains exactly 100 generated records, and carries a fixed non-empty
human-readable error message. -/
theorem c2_fallback_snapshot (rs : Nat → ℚ) (now : ℚ)
    (o : Single.FetchOutcome) (h : Single.fetchFails o) :
    (Single.fetchResult rs now o).usingMockData = true ∧
    (Single.fetchResult rs now o).flights.length = 100 ∧
    (Single.fetchResult rs now o).error = some Single.mockErrMsg ∧
    Single.mockErrMsg ≠ [] := by
  cases o with
  | netError m =>
      exact ⟨rfl, length_generateMockFlightsS rs now 100, rfl, by decide⟩
  | response d =>
      have hl := liveAttempt_fails h
      simp only [Single.fetchResult, hl]
      exact ⟨rfl, length_generateMockFlightsS rs now 100, rfl, by decide⟩

/-- Witness instantiating `c2_fallback_snapshot` at a network error. -/
theorem c2_fallback_snapshot_witness :
    (Single.fetchResult halfStream 0
        (Single.FetchOutcome.netError [])).usingMockData = true ∧
    (Single.fetchResult halfStream 0
        (Single.FetchOutcome.netError [])).flights.length = 100 := by
  have h := c2_fallback_snapshot halfStream 0
    (Single.FetchOutcome.netError []) trivial
  exact ⟨h.1, h.2.1⟩

theorem mapState_fields {s : JVal} {f : Single.Flight}
    (h : Single.mapState s = Except.ok f) :
    f.icao24 = jIndex s 0 ∧
    Single.jsCallsign (jIndex s 1) = Except.ok f.callsign ∧
    f.origin_country = jIndex s 2 ∧
    f.time_position = jIndex s 3 ∧
    f.last_contact = jIndex s 4 ∧
    f.longitude = jIndex s 5 ∧
    f.latitude = jIndex s 6 ∧
    f.baro_altitude = jIndex s 7 ∧
    f.on_ground = jIndex s 8 ∧
    f.velocity = jIndex s 9 ∧
    f.true_track = jIndex s 10 ∧
    f.vertical_rate = jIndex s 11 ∧
    f.sensors = jIndex s 12 ∧
    f.geo_altitude = jIndex s 13 ∧
    f.squawk = jIndex s 14 ∧
    f.spi = jIndex s 15 ∧
    f.position_source = jIndex s 16 := by
  unfold Single.mapState at h
  rcases hc : Single.jsCallsign (jIndex s 1) with e | cs
  · rw [hc] at h
    exact absurd h (by simp)
  · rw [hc] at h
    injection h with h2
    subst h2
    exact ⟨rfl, rfl, rfl, rfl, rfl, rfl, rfl, rfl, rfl, rfl, rfl, rfl, rfl,
      rfl, rfl, rfl, rfl⟩

/-- Claim C7: a well-formed response whose `states` field is an array of two
mappable records yields a live Snapshot — provenance live
(`usingMockData = false`), error cleared — whose two FlightRecords take their
fields positionally from each raw record: index 0 identity, 1 callsign
(trimmed, defaulting to "N/A"), 2 country, 3-4 timestamps, 5 longitude,
6 latitude, 7 barometric altitude, 8 on-ground, 9 velocity, 10 track,
11 vertical rate, 12 sensors, 13 geometric altitude, 14 squawk, 15 spi,
16 position source. -/
theorem c7_live_mapping (rs : Nat → ℚ) (now : ℚ) (s1 s2 : JVal)
    (f1 f2 : Single.Flight)
    (h1 : Single.mapState s1 = Except.ok f1)
    (h2 : Single.mapState s2 = Except.ok f2) :
    Single.fetchResult rs now (Single.FetchOutcome.response
        (JVal.jobj [(Single.statesKey, JVal.jarr [s1, s2])])) =
      { flights := [f1, f2], error := none, usingMockData := false } ∧
    (f1.icao24 = jIndex s1 0 ∧
      Single.jsCallsign (jIndex s1 1) = Except.ok f1.callsign ∧
      f1.origin_country = jIndex s1 2 ∧
      f1.time_position = jIndex s1 3 ∧
      f1.last_contact = jIndex s1 4 ∧
      f1.longitude = jIndex s1 5 ∧
      f1.latitude = jIndex s1 6 ∧
      f1.baro_altitude = jIndex s1 7 ∧
      f1.on_ground = jIndex s1 8 ∧
      f1.velocity = jIndex s1 9 ∧
      f1.true_track = jIndex s1 10 ∧
      f1.vertical_rate = jIndex s1 11 ∧
      f1.sensors = jIndex s1 12 ∧
      f1.geo_altitude = jIndex s1 13 ∧
      f1.squawk = jIndex s1 14 ∧
      f1.spi = jIndex s1 15 ∧
      f1.position_source = jIndex s1 16) ∧
    (f2.icao24 = jIndex s2 0 ∧
      Single.jsCallsign (jIndex s2 1) = Except.ok f2.callsign ∧
      f2.origin_country = jIndex s2 2 ∧
      f2.time_position = jIndex s2 3 ∧
      f2.last_contact = jIndex s2 4 ∧
      f2.longitude = jIndex s2 5 ∧
      f2.latitude = jIndex s2 6 ∧
      f2.baro_altitude = jIndex s2 7 ∧
      f2.on_ground = jIndex s2 8 ∧
      f2.velocity = jIndex s2 9 ∧
      f2.true_track = jIndex s2 10 ∧
      f2.vertical_rate = jIndex s2 11 ∧
      f2.sensors = jIndex s2 12 ∧
      f2.geo_altitude = jIndex s2 13 ∧
      f2.squawk = jIndex s2 14 ∧
      f2.spi = jIndex s2 15 ∧
      f2.position_source = jIndex s2 16) := by
  have hml : Single.mapStates [s1, s2] = Except.ok [f1, f2] := by
    simp [Single.mapStates, h1, h2]
  have hla : Single.liveAttempt
      (JVal.jobj [(Single.statesKey, JVal.jarr [s1, s2])]) = some [f1, f2] := by
    unfold Single.liveAttempt
    simp [jTruthy, jGetField, assocGet, hml]
  refine ⟨?_, mapState_fields h1, mapState_fields h2⟩
  simp only [Single.fetchResult, hla]

/-- The Flight a 17-element raw record of all nulls maps to. -/
def nullFlight : Single.Flight :=
  { icao24 := JVal.jnull, callsign := JVal.jstr Single.nA
    origin_country := JVal.jnull, time_position := JVal.jnull
    last_contact := JVal.jnull, longitude := JVal.jnull
    latitude := JVal.jnull, baro_altitude := JVal.jnull
    on_ground := JVal.jnull, velocity := JVal.jnull, true_track := JVal.jnull
    vertical_rate := JVal.jnull, sensors := JVal.jnull
    geo_altitude := JVal.jnull, squawk := JVal.jnull, spi := JVal.jnull
    position_source := JVal.jnull }

/-- Witness instantiating `c7_live_mapping` at a concrete 2-record payload. -/
theorem c7_live_mapping_witness :
    Single.fetchResult halfStream 0 (Single.FetchOutcome.response
        (JVal.jobj [(Single.statesKey,
          JVal.jarr [JVal.jarr [], JVal.jarr []])])) =
      { flights := [nullFlight, nullFlight], error := none
        usingMockData := false } :=
  (c7_live_mapping halfStream 0 (JVal.jarr []) (JVal.jarr [])
    nullFlight nullFlight rfl rfl).1

/-- Claim C8: for every count `n`, each synthetic generator returns exactly
`n` flight records, each with latitude given by the formula `rand*180 - 90`
(so within [-90, 90)) and longitude given by `rand*360 - 180` (so within
[-180, 180)). -/
theorem c8_generator_ranges (rs : Nat → ℚ) (now : ℚ) (n : Nat)
    (h : ∀ i, 0 ≤ rs i ∧ rs i < 1) :
    (Single.generateMockFlights rs now n).length = n ∧
    (∀ f ∈ Single.generateMockFlights rs now n, ∃ la lo : ℚ,
      f.latitude = JVal.jnum la ∧ f.longitude = JVal.jnum lo ∧
      -90 ≤ la ∧ la < 90 ∧ -180 ≤ lo ∧ lo < 180) ∧
    (Dual.generateMockFlights rs n).length = n ∧
    (∀ f ∈ Dual.generateMockFlights rs n,
      -90 ≤ f.latitude ∧ f.latitude < 90 ∧
      -180 ≤ f.longitude ∧ f.longitude < 180) := by
  refine ⟨length_generateMockFlightsS rs now n, ?_,
    length_generateMockFlightsD rs n, ?_⟩
  · intro f hf
    rw [Single.generateMockFlights, List.mem_map] at hf
    obtain ⟨i, hi, rfl⟩ := hf
    obtain ⟨hla, hlb⟩ := h (14 * i + 5)
    obtain ⟨hoa, hob⟩ := h (14 * i + 4)
    refine ⟨rs (14 * i + 5) * 180 - 90, rs (14 * i + 4) * 360 - 180,
      rfl, rfl, by nlinarith, by nlinarith, by nlinarith, by nlinarith⟩
  · intro f hf
    rw [Dual.generateMockFlights, List.mem_map] at hf
    obtain ⟨i, hi, rfl⟩ := hf
    obtain ⟨hla, hlb⟩ := h (15 * i + 9)
    obtain ⟨hoa, hob⟩ := h (15 * i + 10)
    have e1 : (Dual.mkMockFlight (fun j => rs (15 * i + j))).latitude
        = rs (15 * i + 9) * 180 - 90 := rfl
    have e2 : (Dual.mkMockFlight (fun j => rs (15 * i + j))).longitude
        = rs (15 * i + 10) * 360 - 180 := rfl
    rw [e1, e2]
    exact ⟨by nlinarith, by nlinarith, by nlinarith, by nlinarith⟩

/-- Witness instantiating `c8_generator_ranges` at a concrete stream. -/
theorem c8_generator_ranges_witness :
    (Single.generateMockFlights halfStream 0 3).length = 3 ∧
    (Dual.generateMockFlights halfStream 3).length = 3 := by
  have h := c8_generator_ranges halfStream 0 3 (fun i => by norm_num [halfStream])
  exact ⟨h.1, h.2.2.1⟩

theorem handleSearch_selection (u : Single.SState) :
    (Single.handleSearch u).selectedFlight = u.selectedFlight := by
  unfold Single.handleSearch
  split <;> rfl

/-- Claim C9: a refresh never modifies the selection: if record X is selected
and the refresh publishes a snapshot whose records all lack X's identity, the
selected record is still the same stale X object — neither cleared nor
re-pointed. -/
theorem c9_refresh_preserves_selection (rs : Nat → ℚ) (now : ℚ)
    (o : Single.FetchOutcome) (t : Single.SState) (X : Single.Flight)
    (hsel : t.selectedFlight = some X)
    (_hgone : ∀ f ∈ (Single.applyFetch rs now o t).flights,
      f.icao24 ≠ X.icao24) :
    (Single.applyFetch rs now o t).selectedFlight = some X := by
  unfold Single.applyFetch
  rw [handleSearch_selection]
  exact hsel

/-- The initial `useState` values of the single-mode component. -/
def sInit : Single.SState :=
  { flights := [], filteredFlights := [], selectedFlight := none
    error := none, searchTerm := [], loading := true, usingMockData := false }

/-- A selected flight whose identity the witness refresh does not contain. -/
def staleX : Single.Flight := { nullFlight with icao24 := JVal.jstr ['z'] }

/-- Witness instantiating `c9_refresh_preserves_selection`: X is selected, a
refresh replaces the snapshot by one record without X's identity, and the
selection still holds the stale X. -/
theorem c9_refresh_preserves_selection_witness :
    (Single.applyFetch halfStream 0
        (Single.FetchOutcome.response (JVal.jobj [(Single.statesKey,
          JVal.jarr [JVal.jarr []])]))
        { sInit with selectedFlight := some staleX }).selectedFlight =
      some staleX := by
  refine c9_refresh_preserves_selection halfStream 0 _ _ staleX rfl ?_
  intro f hf
  have he : (Single.applyFetch halfStream 0
      (Single.FetchOutcome.response (JVal.jobj [(Single.statesKey,
        JVal.jarr [JVal.jarr []])]))
      { sInit with selectedFlight := some staleX }).flights = [nullFlight] := rfl
  rw [he] at hf
  simp only [List.mem_singleton] at hf
  subst hf
  simp [nullFlight, staleX]

/-- Event trace reaching a state with both a flight and an airport selected:
load mock data, switch to airport mode, search "nnn", click the first
airport marker, clear the query, switch to flight mode, click the first
plane marker. -/
def ceTrace : List Dual.Ev :=
  [Dual.Ev.load halfStream halfStream,
   Dual.Ev.setMode Dual.SMode.airport,
   Dual.Ev.setTerm ['n', 'n', 'n'],
   Dual.Ev.clickAirport 0,
   Dual.Ev.setTerm [],
   Dual.Ev.setMode Dual.SMode.flight,
   Dual.Ev.clickFlight 0]

unseal Rat.add Rat.mul Rat.sub Rat.inv in
set_option maxRecDepth 100000 in
/-- Claim C6, counterexample: a concrete event sequence of the dual-mode
variant reaches a state in which a flight and an airport are selected
simultaneously — selecting a record of one type does not clear the other
type's selection, so "at most one selection at a time, regardless of mode"
fails on the state. -/
theorem c6_single_selection_counterexample :
    (Dual.run Dual.dInit ceTrace).map
      (fun s => s.selectedFlight.isSome && s.selectedAirport.isSome) =
      some true := by
  decide

/-- Claim C6 (amended): selecting a record unconditionally replaces the
current selection of the same record type, leaving every other state field —
including the other type's selection — unchanged; so at most one flight and
at most one airport are selected at a time, but a flight and an airport can
be selected simultaneously. -/
theorem c6_select_amended (s : Dual.DState) (i : Nat) :
    (∀ f, s.searchType = Dual.SMode.flight →
      s.filteredFlights.get? i = some f →
      Dual.step s (Dual.Ev.clickFlight i) =
        some { s with selectedFlight := some f } ∧
      ({ s with selectedFlight := some f } : Dual.DState).selectedAirport =
        s.selectedAirport) ∧
    (∀ a, s.searchType = Dual.SMode.airport →
      s.filteredAirports.get? i = some a →
      Dual.step s (Dual.Ev.clickAirport i) =
        some { s with selectedAirport := some a } ∧
      ({ s with selectedAirport := some a } : Dual.DState).selectedFlight =
        s.selectedFlight) := by
  constructor
  · intro f hm hg
    simp only [Dual.step]
    rw [if_pos hm, hg]
    exact ⟨rfl, trivial⟩
  · intro a hm hg
    simp only [Dual.step]
    rw [if_pos hm, hg]
    exact ⟨rfl, trivial⟩

/-- A dual-mode state with one rendered flight marker. -/
def c6State : Dual.DState := { Dual.dInit with filteredFlights := [demoFlight] }

/-- Witness instantiating `c6_select_amended` at a concrete state. -/
theorem c6_select_amended_witness :
    Dual.step c6State (Dual.Ev.clickFlight 0) =
      some { c6State with selectedFlight := some demoFlight } ∧
    ({ c6State with selectedFlight := some demoFlight } :
      Dual.DState).selectedAirport = c6State.selectedAirport :=
  (c6_select_amended c6State 0).1 demoFlight rfl rfl
